import Mathlib

/-!
Shallow embedding of the OTP-gated session authentication and time-series
ingestion/query core of `src/app.py` (Flask web backend for an IOP tracker).

Modelling conventions:
- Flask session entries (`session['otp']`, `session['otp_expiry']`,
  `session['email']`, `session['authenticated']`) become a `SessionState`
  record; absent keys are `none` (the authenticated flag is a `Bool`, with
  absent modelled as `false`, matching Python truthiness of
  `session.get('authenticated')`).
- Timestamps (`datetime.timestamp()` floats, SQL `TIMESTAMPTZ`) and the REAL
  columns become `ℚ`; the threshold comparisons in the code are pure order
  comparisons, faithfully represented on rationals.
- The SMTP collaborator `send_email_otp` returns the generated code or `None`
  on failure; routes that call it take a `mailOtp : Option String` parameter
  holding that outcome.
- Database tables become lists: `users : List User` (with the UNIQUE email
  constraint realised by `ON CONFLICT (email) DO NOTHING`, embedded as
  `insertOnConflictEmail`) and `iop_logs : List LogRow`.
- SQL `ORDER BY timestamp DESC` is a stable sort with relation `tsDesc`;
  `LIMIT n` is `List.take n`; `WHERE` is `List.filter`.
- A Python comparison `None > x` raises `TypeError`; option-valued fields are
  therefore compared through `pyGt`, which returns `Except Unit Bool` with
  `.error ()` standing for the raised exception.
-/

/-- One user's Flask session, as `src/app.py` uses it. -/
structure SessionState where
  otp : Option String
  otp_expiry : Option ℚ
  email : Option String
  authenticated : Bool
deriving Repr, DecidableEq

/-- A row of the `users` table (columns the core reads: `id`, `email`). -/
structure User where
  id : String
  email : String
deriving Repr, DecidableEq

/-- A row of the `iop_logs` table (columns the core reads). -/
structure LogRow where
  user_id : String
  iop : Option ℚ
  blue_light : Option ℚ
  screen_time : Option ℚ
  timestamp : ℚ
deriving Repr, DecidableEq

/-- Python truthiness of `not session.get(key)` / `not email` for an optional
string: `None` and the empty string are both falsy. -/
def emailFalsy : Option String → Bool
  | none => true
  | some s => s.isEmpty

/-- `INSERT INTO users (id, email) VALUES (...) ON CONFLICT (email) DO NOTHING`:
append the record unless a row with the same email already exists. -/
def insertOnConflictEmail (users : List User) (u : User) : List User :=
  if users.any (fun v => v.email == u.email) then users else users ++ [u]

/-- Number of `users` rows holding the given email. -/
def countEmail (e : String) (users : List User) : Nat :=
  (users.filter (fun u => u.email == e)).length

/-- The user-resolution block inside `verify_otp` (src/app.py lines 242-255):
`SELECT id FROM users WHERE email = %s`; keep the found id or draw a fresh
uuid; then insert with `ON CONFLICT (email) DO NOTHING`. Returns the resolved
id and the updated table. -/
def resolveOrCreate (email : String) (users : List User) (freshId : String) :
    String × List User :=
  let user_id :=
    match users.find? (fun u => u.email == email) with
    | some u => u.id
    | none => freshId
  (user_id, insertOnConflictEmail users ⟨user_id, email⟩)

/-- Python `str.strip()`: drop leading and trailing whitespace. Implemented
structurally on the character list so that concrete instances evaluate. -/
def pyStrip (s : String) : String :=
  ⟨((s.data.dropWhile Char.isWhitespace).reverse.dropWhile
      Char.isWhitespace).reverse⟩

/-- Python `str.lower()`: lowercase each character. Implemented structurally
on the character list so that concrete instances evaluate. -/
def pyLower (s : String) : String := ⟨s.data.map Char.toLower⟩

inductive LoginResult where
  | emailRequired
  | mailFailed
  | otpSent
deriving Repr, DecidableEq

/-- The POST branch of the `/login` route (src/app.py lines 205-223).
`mailOtp` is the outcome of `send_email_otp` (the mailed code, or `none` when
the SMTP dispatch failed). On success the session gets the code, the expiry
`now + 5 minutes = now + 300` seconds, and the normalized email. -/
def login (rawEmail : String) (mailOtp : Option String) (now : ℚ)
    (s : SessionState) : LoginResult × SessionState :=
  let email := pyLower (pyStrip rawEmail)
  if email.isEmpty then (.emailRequired, s)
  else
    match mailOtp with
    | none => (.mailFailed, s)
    | some otp =>
      (.otpSent,
        { s with otp := some otp, otp_expiry := some (now + 300),
                 email := some email })

inductive VerifyResult where
  | expiredOtp
  | incorrectOtp
  | keyError
  | loginSuccess
deriving Repr, DecidableEq

/-- The POST branch of the `/verify_otp` route (src/app.py lines 230-262).
The entered code is stripped (`request.form['otp'].strip()`); the challenge is
rejected as expired when `session.get('otp_expiry')` is absent or strictly in
the past; an exact string comparison with `session.get('otp')` decides
success; on success the user is resolved or created and
`session['authenticated']` is set — the stored `otp`/`otp_expiry` keys are
left in place. `keyError` models the `session['email']` lookup raising when
the key is absent. -/
def verify_otp (enteredRaw : String) (now : ℚ) (s : SessionState)
    (users : List User) (freshId : String) :
    VerifyResult × SessionState × List User :=
  let entered := pyStrip enteredRaw
  match s.otp_expiry with
  | none => (.expiredOtp, s, users)
  | some expiry =>
    if expiry < now then (.expiredOtp, s, users)
    else if s.otp == some entered then
      match s.email with
      | none => (.keyError, s, users)
      | some email =>
        let users' := (resolveOrCreate email users freshId).2
        (.loginSuccess, { s with authenticated := true }, users')
    else (.incorrectOtp, s, users)

inductive ResendResult where
  | sessionExpired
  | resendFailed
  | resent
deriving Repr, DecidableEq

/-- The `/resend_otp` route (src/app.py lines 267-281): requires a truthy
session email; on a successful mail dispatch overwrites the challenge with the
new code and a fresh five-minute expiry; on a failed dispatch changes
nothing. -/
def resend_otp (mailOtp : Option String) (now : ℚ) (s : SessionState) :
    ResendResult × SessionState :=
  if emailFalsy s.email then (.sessionExpired, s)
  else
    match mailOtp with
    | none => (.resendFailed, s)
    | some otp =>
      (.resent, { s with otp := some otp, otp_expiry := some (now + 300) })

/-- SQL `ORDER BY timestamp DESC` as a relation: `a` comes no later than `b`
in the output when `b.timestamp ≤ a.timestamp`. -/
def tsDesc (a b : LogRow) : Prop := b.timestamp ≤ a.timestamp

instance : DecidableRel tsDesc := fun a b => inferInstanceAs (Decidable (_ ≤ _))

instance : IsTotal LogRow tsDesc := ⟨fun a b => le_total b.timestamp a.timestamp⟩

instance : IsTrans LogRow tsDesc := ⟨fun _ _ _ h1 h2 => le_trans h2 h1⟩

/-- Sort a list of rows by `timestamp` descending (stable), the order all the
`ORDER BY timestamp DESC` queries in `src/app.py` produce. -/
def sortDesc (rows : List LogRow) : List LogRow := List.insertionSort tsDesc rows

/-- `SELECT ... FROM iop_logs WHERE user_id = uid ORDER BY timestamp DESC
LIMIT n` (the "latest" query of `dashboard`, `report`, `latest_data`). -/
def latestWindow (logs : List LogRow) (uid : String) (n : Nat) : List LogRow :=
  (sortDesc (logs.filter (fun r => r.user_id == uid))).take n

/-- `SELECT ... FROM iop_logs WHERE user_id = uid AND timestamp BETWEEN a AND b
ORDER BY timestamp DESC` (the "range" query of `history`). -/
def rangeQuery (logs : List LogRow) (uid : String) (a b : ℚ) : List LogRow :=
  sortDesc (logs.filter
    (fun r => r.user_id == uid && decide (a ≤ r.timestamp)
      && decide (r.timestamp ≤ b)))

/-- Python `v > t` where `v` came from a nullable column: comparing `None`
with a number raises `TypeError`, modelled as `.error ()`. -/
def pyGt (v : Option ℚ) (t : ℚ) : Except Unit Bool :=
  match v with
  | none => .error ()
  | some x => .ok (decide (t < x))

/-- The alert block of `dashboard`/`report` (src/app.py lines 314-321 and
410-417): when a `latest` row exists, test `iop > 21`, `blue_light > 25`,
`screen_time > 5` in that order, collecting the fixed messages; a `None`
field makes the comparison raise (`.error ()`). With no row, no alerts. -/
def evalAlerts (latest : Option LogRow) : Except Unit (List String) :=
  match latest with
  | none => .ok []
  | some r => do
    let hi ← pyGt r.iop 21
    let hb ← pyGt r.blue_light 25
    let hs ← pyGt r.screen_time 5
    pure ((if hi then ["High IOP detected! Consult a doctor."] else []) ++
          (if hb then ["High blue light exposure. Take a break!"] else []) ++
          (if hs then ["Reduce screen time to prevent eye strain."] else []))

/-- The data handed to the dashboard template: the `latest` row the route
selected, the alert list, and the chart arrays (each DESC window reversed by
`[::-1]` into ascending order). -/
structure DashboardPage where
  latest : Option LogRow
  alerts : List String
  iop_values : List (Option ℚ)
  blue_values : List (Option ℚ)
  screen_values : List (Option ℚ)
  timestamps : List ℚ
deriving Repr, DecidableEq

inductive DashboardResult where
  | redirectLogin
  | keyError
  | userNotFound
  | typeError
  | page (d : DashboardPage)
deriving Repr, DecidableEq

/-- The `/dashboard` route (src/app.py lines 284-337): session gate, user
lookup by session email, the latest-10 window, chart arrays reversed to
ascending, `latest = rows[-1] if rows else None`, and the alert block (a
raised `TypeError` from a `None` comparison aborts the request). -/
def dashboard (s : SessionState) (users : List User) (logs : List LogRow) :
    DashboardResult :=
  if !s.authenticated then .redirectLogin
  else
    match s.email with
    | none => .keyError
    | some email =>
      match users.find? (fun u => u.email == email) with
      | none => .userNotFound
      | some u =>
        let rows := latestWindow logs u.id 10
        let latest := rows.getLast?
        match evalAlerts latest with
        | .error _ => .typeError
        | .ok alerts =>
          .page { latest := latest
                  alerts := alerts
                  iop_values := (rows.map (fun r => r.iop)).reverse
                  blue_values := (rows.map (fun r => r.blue_light)).reverse
                  screen_values := (rows.map (fun r => r.screen_time)).reverse
                  timestamps := (rows.map (fun r => r.timestamp)).reverse }

inductive HistoryResult where
  | redirectLogin
  | keyError
  | userNotFound
  | page (logs : List LogRow)
deriving Repr, DecidableEq

/-- The `/history` route (src/app.py lines 340-379) after date parsing:
session gate, user lookup, then the range query ordered descending. `startD`
and `endD` are the resolved bounds (parsed dates or the one-week default). -/
def history (s : SessionState) (users : List User) (logs : List LogRow)
    (startD endD : ℚ) : HistoryResult :=
  if !s.authenticated then .redirectLogin
  else
    match s.email with
    | none => .keyError
    | some email =>
      match users.find? (fun u => u.email == email) with
      | none => .userNotFound
      | some u => .page (rangeQuery logs u.id startD endD)

/-- The data handed to the report template (report builds only the IOP chart
array). -/
structure ReportPage where
  latest : Option LogRow
  alerts : List String
  iop_values : List (Option ℚ)
  timestamps : List ℚ
deriving Repr, DecidableEq

inductive ReportResult where
  | redirectLogin
  | keyError
  | userNotFound
  | typeError
  | page (d : ReportPage)
deriving Repr, DecidableEq

/-- The `/report` route (src/app.py lines 382-425): identical window,
`latest = rows[-1]` selection and alert block as `dashboard`. -/
def report (s : SessionState) (users : List User) (logs : List LogRow) :
    ReportResult :=
  if !s.authenticated then .redirectLogin
  else
    match s.email with
    | none => .keyError
    | some email =>
      match users.find? (fun u => u.email == email) with
      | none => .userNotFound
      | some u =>
        let rows := latestWindow logs u.id 10
        let latest := rows.getLast?
        match evalAlerts latest with
        | .error _ => .typeError
        | .ok alerts =>
          .page { latest := latest
                  alerts := alerts
                  iop_values := (rows.map (fun r => r.iop)).reverse
                  timestamps := (rows.map (fun r => r.timestamp)).reverse }

/-- The JSON body of a `/send_data` POST; `data.get(k)` yields `none` for an
absent key. -/
structure IngestBody where
  email : Option String
  iop : Option ℚ
  blue_light : Option ℚ
  screen_time : Option ℚ
deriving Repr, DecidableEq

inductive IngestResult where
  | validationError
  | notFound
  | success
deriving Repr, DecidableEq

/-- The `/send_data` route (src/app.py lines 435-467): reject with HTTP 400
when `not email or iop is None`; reject with HTTP 404 when no user row holds
the email; otherwise insert the reading (`timestamp` defaults to the server
clock `now`). The route receives the caller's session `sess` like every Flask
handler but its body never reads it. -/
def send_data (sess : SessionState) (users : List User) (logs : List LogRow)
    (body : IngestBody) (now : ℚ) : IngestResult × List LogRow :=
  match body.email, body.iop with
  | some e, some v =>
    if e.isEmpty then (.validationError, logs)
    else
      match users.find? (fun u => u.email == e) with
      | none => (.notFound, logs)
      | some u =>
        (.success,
          logs ++ [{ user_id := u.id, iop := some v,
                     blue_light := body.blue_light,
                     screen_time := body.screen_time, timestamp := now }])
  | _, _ => (.validationError, logs)

/-! ### Helper lemmas characterising `verify_otp` -/

lemma verify_otp_expired_of_none (entered : String) (now : ℚ) (s : SessionState)
    (users : List User) (f : String) (hx : s.otp_expiry = none) :
    verify_otp entered now s users f = (.expiredOtp, s, users) := by
  unfold verify_otp
  rw [hx]

lemma verify_otp_expired_of_lt (entered : String) (now : ℚ) (s : SessionState)
    (users : List User) (f : String) (x : ℚ)
    (hx : s.otp_expiry = some x) (h : x < now) :
    verify_otp entered now s users f = (.expiredOtp, s, users) := by
  unfold verify_otp
  rw [hx]
  simp [h]

lemma verify_otp_incorrect_of_ne (entered : String) (now : ℚ) (s : SessionState)
    (users : List User) (f : String) (x : ℚ)
    (hx : s.otp_expiry = some x) (h : ¬ x < now)
    (hne : s.otp ≠ some (pyStrip entered)) :
    verify_otp entered now s users f = (.incorrectOtp, s, users) := by
  unfold verify_otp
  rw [hx]
  simp [h, hne]

lemma verify_otp_success_of (entered : String) (now : ℚ) (s : SessionState)
    (users : List User) (f : String) (x : ℚ) (em : String)
    (hx : s.otp_expiry = some x) (h : ¬ x < now)
    (ho : s.otp = some (pyStrip entered)) (he : s.email = some em) :
    verify_otp entered now s users f =
      (.loginSuccess, { s with authenticated := true },
        (resolveOrCreate em users f).2) := by
  unfold verify_otp
  rw [hx]
  simp [h, ho, he]

lemma verify_otp_success_inv (entered : String) (now : ℚ) (s : SessionState)
    (users : List User) (f : String)
    (hsucc : (verify_otp entered now s users f).1 = .loginSuccess) :
    ∃ x em, s.otp_expiry = some x ∧ ¬ x < now ∧
      s.otp = some (pyStrip entered) ∧ s.email = some em := by
  unfold verify_otp at hsucc
  split at hsucc
  · simp at hsucc
  · rename_i x hexp
    split at hsucc
    · simp at hsucc
    · rename_i hlt
      split at hsucc
      · simp only [] at hsucc
        split at hsucc <;> simp at hsucc
      · rename_i em hem
        simp only [] at hsucc
        split at hsucc
        · rename_i ho
          exact ⟨x, em, hexp, hlt, by simpa [beq_iff_eq] using ho, hem⟩
        · simp at hsucc

/-- Claim C1 (amended): the OTP challenge is NOT consumed on successful
verification — after `verify` succeeds the session keeps the same stored code
and expiry, and the same code is accepted again by a later `verify` in the
same session at any time not past the stored expiry; however, no code is ever
accepted after its expiry instant (and none when no challenge is present). -/
theorem C1_challenge_reuse_and_expiry (entered : String) (now now2 : ℚ)
    (s : SessionState) (users : List User) (f1 f2 : String) :
    ((verify_otp entered now s users f1).1 = .loginSuccess →
      ((verify_otp entered now s users f1).2.1).otp = s.otp ∧
      ((verify_otp entered now s users f1).2.1).otp_expiry = s.otp_expiry ∧
      (∀ x, s.otp_expiry = some x → ¬ x < now2 →
        (verify_otp entered now2 ((verify_otp entered now s users f1).2.1)
          ((verify_otp entered now s users f1).2.2) f2).1 = .loginSuccess)) ∧
    (∀ x, s.otp_expiry = some x → x < now →
      (verify_otp entered now s users f1).1 = .expiredOtp) ∧
    (s.otp_expiry = none →
      (verify_otp entered now s users f1).1 = .expiredOtp) := by
  refine ⟨?_, ?_, ?_⟩
  · intro hsucc
    obtain ⟨x, em, hx, hlt, ho, he⟩ := verify_otp_success_inv _ _ _ _ _ hsucc
    rw [verify_otp_success_of entered now s users f1 x em hx hlt ho he]
    refine ⟨rfl, rfl, ?_⟩
    intro x2 hx2 hlt2
    rw [verify_otp_success_of entered now2 _ _ f2 x2 em (by simpa using hx2)
      hlt2 (by simpa using ho) (by simpa using he)]
  · intro x hx hlt
    rw [verify_otp_expired_of_lt entered now s users f1 x hx hlt]
  · intro hx
    rw [verify_otp_expired_of_none entered now s users f1 hx]

theorem C1_witness :
    (verify_otp "123456" 200
      ((verify_otp "123456" 100 ⟨some "123456", some 300, some "a@b.c", false⟩
        [] "u1").2.1)
      ((verify_otp "123456" 100 ⟨some "123456", some 300, some "a@b.c", false⟩
        [] "u1").2.2) "u2").1 = .loginSuccess :=
  ((C1_challenge_reuse_and_expiry "123456" 100 200
      ⟨some "123456", some 300, some "a@b.c", false⟩ [] "u1" "u2").1
    (by decide)).2.2 300 rfl (by decide)

/-- Counterexample to claim C1 as stated: in a session holding the unexpired
challenge `"123456"`, `verify` succeeds with that code at time 100, and a
later `verify` in the same session with the very same code (time 200, still
before the expiry 300) succeeds again — the challenge was not consumed. -/
theorem C1_counterexample :
    (verify_otp "123456" 100 ⟨some "123456", some 300, some "a@b.c", false⟩
      [] "u1").1 = .loginSuccess ∧
    (verify_otp "123456" 200
      ((verify_otp "123456" 100 ⟨some "123456", some 300, some "a@b.c", false⟩
        [] "u1").2.1)
      ((verify_otp "123456" 100 ⟨some "123456", some 300, some "a@b.c", false⟩
        [] "u1").2.2) "u2").1 = .loginSuccess := by
  decide

/-- Claim C4: an OTP issued at time `now` is stored with expiry
`now + 5 minutes = now + 300 s`; `verify` with the mailed code succeeds at
`now + 299` (T+4:59) and fails as expired at `now + 301` (T+5:01); and
`verify` fails as expired whenever the clock is strictly past the stored
expiry or no challenge is present in the session. -/
theorem C4_expiry_window (raw c : String) (now : ℚ) (s : SessionState)
    (users : List User) (f : String)
    (hc : pyStrip c = c) (hne : (pyLower (pyStrip raw)).isEmpty = false) :
    (login raw (some c) now s).1 = .otpSent ∧
    ((login raw (some c) now s).2).otp_expiry = some (now + 300) ∧
    (verify_otp c (now + 299) ((login raw (some c) now s).2) users f).1 =
      .loginSuccess ∧
    (verify_otp c (now + 301) ((login raw (some c) now s).2) users f).1 =
      .expiredOtp ∧
    (∀ (s2 : SessionState) (entered : String) (n2 : ℚ),
      (s2.otp_expiry = none →
        (verify_otp entered n2 s2 users f).1 = .expiredOtp) ∧
      (∀ x, s2.otp_expiry = some x → x < n2 →
        (verify_otp entered n2 s2 users f).1 = .expiredOtp)) := by
  have hlogin : login raw (some c) now s =
      (.otpSent,
        ⟨some c, some (now + 300), some (pyLower (pyStrip raw)),
          s.authenticated⟩) := by
    unfold login
    simp [hne]
  refine ⟨by rw [hlogin], by rw [hlogin], ?_, ?_, ?_⟩
  · rw [hlogin]
    rw [verify_otp_success_of c (now + 299) _ users f (now + 300)
      (pyLower (pyStrip raw)) rfl (by intro h; linarith) (by simp [hc]) rfl]
  · rw [hlogin]
    rw [verify_otp_expired_of_lt c (now + 301) _ users f (now + 300) rfl
      (by linarith)]
  · intro s2 entered n2
    refine ⟨fun h => ?_, fun x hx hlt => ?_⟩
    · rw [verify_otp_expired_of_none entered n2 s2 users f h]
    · rw [verify_otp_expired_of_lt entered n2 s2 users f x hx hlt]

theorem C4_witness :
    (verify_otp "123456" ((0 : ℚ) + 299)
      ((login "a@b.c" (some "123456") 0 ⟨none, none, none, false⟩).2)
      [] "u1").1 = .loginSuccess ∧
    (verify_otp "123456" ((0 : ℚ) + 301)
      ((login "a@b.c" (some "123456") 0 ⟨none, none, none, false⟩).2)
      [] "u1").1 = .expiredOtp :=
  ⟨(C4_expiry_window "a@b.c" "123456" 0 ⟨none, none, none, false⟩ [] "u1"
      (by decide) (by decide)).2.2.1,
   (C4_expiry_window "a@b.c" "123456" 0 ⟨none, none, none, false⟩ [] "u1"
      (by decide) (by decide)).2.2.2.1⟩

/-- Claim C6 (amended): `verify` first strips surrounding whitespace from the
submitted code (`request.form['otp'].strip()`); for a session holding an
unexpired challenge, a submission whose stripped form does not exactly
string-match the stored code fails with IncorrectOtp and leaves the whole
session state (and the user table) unchanged. -/
theorem C6_incorrect_code_frame (entered : String) (now : ℚ) (s : SessionState)
    (users : List User) (f : String) (x : ℚ)
    (hx : s.otp_expiry = some x) (hnow : ¬ x < now)
    (hne : s.otp ≠ some (pyStrip entered)) :
    verify_otp entered now s users f = (.incorrectOtp, s, users) :=
  verify_otp_incorrect_of_ne entered now s users f x hx hnow hne

theorem C6_witness :
    verify_otp "999999" 100 ⟨some "123456", some 300, some "e@x.y", false⟩
      [] "u1" =
    (.incorrectOtp, ⟨some "123456", some 300, some "e@x.y", false⟩, []) :=
  C6_incorrect_code_frame "999999" 100
    ⟨some "123456", some 300, some "e@x.y", false⟩ [] "u1" 300 rfl
    (by decide) (by decide)

/-- Counterexample to claim C6 as stated: the submitted code `" 123456"` does
not exactly string-match the stored code `"123456"`, yet `verify` succeeds
(the route strips whitespace before comparing) and flips the session's
authenticated flag from `false` to `true`. -/
theorem C6_counterexample :
    ((" 123456" == "123456") = false) ∧
    (verify_otp " 123456" 100 ⟨some "123456", some 300, some "e@x.y", false⟩
      [] "u1").1 = .loginSuccess ∧
    ((verify_otp " 123456" 100 ⟨some "123456", some 300, some "e@x.y", false⟩
      [] "u1").2.1).authenticated = true := by
  decide

/-- Claim C7: when the mail dispatch fails (`send_email_otp` returns `None`),
both `/login` and `/resend_otp` fail and commit nothing: the session is
returned exactly as it was (stored code, expiry and email untouched, so a
prior unexpired challenge survives a failed resend). -/
theorem C7_mail_failure_no_commit (raw : String) (now : ℚ) (s : SessionState) :
    (login raw none now s).2 = s ∧
    (login raw none now s).1 =
      (if (pyLower (pyStrip raw)).isEmpty then .emailRequired else .mailFailed) ∧
    (resend_otp none now s).2 = s ∧
    (resend_otp none now s).1 =
      (if emailFalsy s.email then .sessionExpired else .resendFailed) := by
  refine ⟨?_, ?_, ?_, ?_⟩
  · unfold login
    by_cases h : (pyLower (pyStrip raw)).isEmpty <;> simp [h]
  · unfold login
    by_cases h : (pyLower (pyStrip raw)).isEmpty <;> simp [h]
  · unfold resend_otp
    by_cases h : emailFalsy s.email <;> simp [h]
  · unfold resend_otp
    by_cases h : emailFalsy s.email <;> simp [h]

/-- Claim C3 (amended): the alert evaluation does NOT skip absent fields — if
the latest reading has `None` in any of `iop`, `blue_light`, `screen_time`,
the Python comparison with the threshold raises a `TypeError` (modelled as
`.error ()`); only when no reading exists at all does evaluation yield the
empty alert sequence. -/
theorem C3_absent_field_raises (r : LogRow)
    (h : r.iop = none ∨ r.blue_light = none ∨ r.screen_time = none) :
    evalAlerts (some r) = .error () ∧ evalAlerts none = .ok [] := by
  refine ⟨?_, rfl⟩
  rcases h with h | h | h
  · simp [evalAlerts, pyGt, h, Bind.bind, Except.bind, Functor.map, Except.map]
  · cases hi : r.iop <;>
      simp [evalAlerts, pyGt, h, hi, Bind.bind, Except.bind, Functor.map,
        Except.map]
  · cases hi : r.iop <;> cases hb : r.blue_light <;>
      simp [evalAlerts, pyGt, h, hi, hb, Bind.bind, Except.bind, Functor.map,
        Except.map]

theorem C3_witness :
    evalAlerts (some ⟨"u", none, some 1, some 2, 0⟩) = .error () ∧
    evalAlerts none = .ok [] :=
  C3_absent_field_raises ⟨"u", none, some 1, some 2, 0⟩ (Or.inl rfl)

/-- Counterexample to claim C3 as stated: evaluating a reading with all three
fields absent does not yield the empty alert sequence — it raises (the first
comparison `None > 21` is a Python `TypeError`). -/
theorem C3_counterexample :
    evalAlerts (some ⟨"u", none, none, none, 0⟩) = .error () := rfl

/-- Claim C8: user creation on successful login is idempotent. Given the
`users` table satisfies the UNIQUE-email invariant (at most one row for the
email), running the `verify_otp` user-resolution block twice resolves to the
same user id the first run produced, leaves the table unchanged the second
time, and the table holds exactly one row for that email after either run. -/
theorem C8_user_creation_idempotent (e : String) (users : List User)
    (f1 f2 : String) (hinv : countEmail e users ≤ 1) :
    (resolveOrCreate e ((resolveOrCreate e users f1).2) f2).1 =
      (resolveOrCreate e users f1).1 ∧
    (resolveOrCreate e ((resolveOrCreate e users f1).2) f2).2 =
      (resolveOrCreate e users f1).2 ∧
    countEmail e ((resolveOrCreate e users f1).2) = 1 := by
  cases hfind : users.find? (fun u => u.email == e) with
  | some u =>
    have hmem : u ∈ users := List.mem_of_find?_eq_some hfind
    have hpu : (u.email == e) = true := by
      simpa using List.find?_some hfind
    have hany : users.any (fun v => v.email == e) = true :=
      List.any_eq_true.mpr ⟨u, hmem, hpu⟩
    have h1 : resolveOrCreate e users f1 = (u.id, users) := by
      unfold resolveOrCreate insertOnConflictEmail
      simp [hfind, hany]
    have hcount : countEmail e users = 1 := by
      refine le_antisymm hinv ?_
      have : u ∈ users.filter (fun v => v.email == e) :=
        List.mem_filter.mpr ⟨hmem, hpu⟩
      unfold countEmail
      exact List.length_pos.mpr (List.ne_nil_of_mem this)
    have h2 : resolveOrCreate e users f2 = (u.id, users) := by
      unfold resolveOrCreate insertOnConflictEmail
      simp [hfind, hany]
    rw [h1]
    exact ⟨by simp [h2], by simp [h2], hcount⟩
  | none =>
    have hforall : ∀ v ∈ users, ¬ (v.email == e) = true :=
      List.find?_eq_none.mp hfind
    have hany : users.any (fun v => v.email == e) = false := by
      rw [← Bool.not_eq_true, List.any_eq_true]
      rintro ⟨v, hv, hpv⟩
      exact hforall v hv hpv
    have h1 : resolveOrCreate e users f1 = (f1, users ++ [⟨f1, e⟩]) := by
      unfold resolveOrCreate insertOnConflictEmail
      simp [hfind, hany]
    have hfind2 : (users ++ [(⟨f1, e⟩ : User)]).find? (fun u => u.email == e)
        = some ⟨f1, e⟩ := by
      rw [List.find?_append, hfind]
      simp
    have hany2 : (users ++ [(⟨f1, e⟩ : User)]).any (fun v => v.email == e)
        = true := by
      refine List.any_eq_true.mpr ⟨⟨f1, e⟩, ?_, by simp⟩
      simp
    have h2 : resolveOrCreate e (users ++ [⟨f1, e⟩]) f2 =
        (f1, users ++ [⟨f1, e⟩]) := by
      unfold resolveOrCreate insertOnConflictEmail
      simp [hfind2, hany2]
    have hfilter : users.filter (fun v => v.email == e) = [] :=
      List.filter_eq_nil_iff.mpr hforall
    rw [h1]
    refine ⟨by rw [h2], by rw [h2], ?_⟩
    unfold countEmail
    rw [List.filter_append, hfilter]
    simp

theorem C8_witness :
    (resolveOrCreate "a@b.c" ((resolveOrCreate "a@b.c" [] "u1").2) "u2").1 =
      (resolveOrCreate "a@b.c" [] "u1").1 ∧
    (resolveOrCreate "a@b.c" ((resolveOrCreate "a@b.c" [] "u1").2) "u2").2 =
      (resolveOrCreate "a@b.c" [] "u1").2 ∧
    countEmail "a@b.c" ((resolveOrCreate "a@b.c" [] "u1").2) = 1 :=
  C8_user_creation_idempotent "a@b.c" [] "u1" "u2" (by decide)

/-- Claim C9: ingest fails with ValidationError (HTTP 400) when the email is
missing (absent or empty, Python `not email`) or `iop` is absent; fails with
NotFound (HTTP 404) when the email resolves to no user row; both failures
store nothing; otherwise the reading is stored and success is returned. -/
theorem C9_ingest_outcomes (sess : SessionState) (users : List User)
    (logs : List LogRow) (body : IngestBody) (now : ℚ) :
    (emailFalsy body.email = true ∨ body.iop = none →
      send_data sess users logs body now = (.validationError, logs)) ∧
    (∀ e v, body.email = some e → e.isEmpty = false → body.iop = some v →
      users.find? (fun u => u.email == e) = none →
      send_data sess users logs body now = (.notFound, logs)) ∧
    (∀ e v u, body.email = some e → e.isEmpty = false → body.iop = some v →
      users.find? (fun u => u.email == e) = some u →
      send_data sess users logs body now =
        (.success,
          logs ++ [⟨u.id, some v, body.blue_light, body.screen_time, now⟩])) := by
  refine ⟨?_, ?_, ?_⟩
  · intro h
    rcases hbe : body.email with _ | e
    · rcases hbi : body.iop with _ | v <;> simp [send_data, hbe, hbi]
    · rcases hbi : body.iop with _ | v
      · simp [send_data, hbe, hbi]
      · rcases h with h | h
        · rw [hbe] at h
          simp only [emailFalsy] at h
          simp [send_data, hbe, hbi, h]
        · rw [hbi] at h
          exact absurd h (by simp)
  · intro e v hbe hne hbi hfind
    simp [send_data, hbe, hbi, hne, hfind]
  · intro e v u hbe hne hbi hfind
    simp [send_data, hbe, hbi, hne, hfind]

theorem C9_witness :
    send_data ⟨none, none, none, false⟩ [] [] ⟨none, some 15, none, none⟩ 0 =
      (.validationError, []) :=
  (C9_ingest_outcomes ⟨none, none, none, false⟩ [] []
      ⟨none, some 15, none, none⟩ 0).1 (Or.inl (by decide))

/-- Claim C10: the ingest operation consults no session state — for the same
body, table and clock, two requests whose sessions differ (in particular in
the authenticated flag) produce the identical response and identical stored
log, so ingestion succeeds regardless of authentication. -/
theorem C10_ingest_ignores_session (s : SessionState) (a b : Bool)
    (users : List User) (logs : List LogRow) (body : IngestBody) (now : ℚ) :
    send_data { s with authenticated := a } users logs body now =
    send_data { s with authenticated := b } users logs body now := rfl

/-- Claim C2 (code bug, exhibited): a user with two stored readings, at
timestamps 1 (iop 30) and 2 (iop 10). The dashboard window is DESC-ordered,
so `rows[-1]` — the reading the code names `latest` and feeds to the alert
block — is the OLDEST reading of the window (timestamp 1), and the alert list
comes out non-empty even though evaluating the genuinely most recent reading
(timestamp 2) yields no alert. The report route behaves identically. -/
theorem C2_alerts_use_oldest_of_window :
    (dashboard ⟨none, none, some "a@b.c", true⟩ [⟨"u1", "a@b.c"⟩]
        [⟨"u1", some 30, some 0, some 0, 1⟩,
         ⟨"u1", some 10, some 0, some 0, 2⟩] =
      .page ⟨some ⟨"u1", some 30, some 0, some 0, 1⟩,
        ["High IOP detected! Consult a doctor."],
        [some 30, some 10], [some 0, some 0], [some 0, some 0], [1, 2]⟩) ∧
    evalAlerts (some ⟨"u1", some 10, some 0, some 0, 2⟩) = .ok [] ∧
    (report ⟨none, none, some "a@b.c", true⟩ [⟨"u1", "a@b.c"⟩]
        [⟨"u1", some 30, some 0, some 0, 1⟩,
         ⟨"u1", some 10, some 0, some 0, 2⟩] =
      .page ⟨some ⟨"u1", some 30, some 0, some 0, 1⟩,
        ["High IOP detected! Consult a doctor."],
        [some 30, some 10], [1, 2]⟩) :=
  ⟨rfl, rfl, rfl⟩

/-! ### Ordering facts about the queries -/

lemma sortDesc_pairwise (rows : List LogRow) :
    List.Pairwise tsDesc (sortDesc rows) :=
  List.sorted_insertionSort tsDesc rows

lemma latestWindow_pairwise (logs : List LogRow) (uid : String) (n : Nat) :
    List.Pairwise tsDesc (latestWindow logs uid n) :=
  (sortDesc_pairwise _).sublist (List.take_sublist _ _)

lemma latestWindow_reverse_ascending (logs : List LogRow) (uid : String)
    (n : Nat) :
    List.Pairwise (fun x y : LogRow => x.timestamp ≤ y.timestamp)
      ((latestWindow logs uid n).reverse) :=
  List.pairwise_reverse.mpr
    ((latestWindow_pairwise logs uid n).imp (fun h => h))

/-- Claim C5: the "latest" window feeding the dashboard chart arrays is
ascending by timestamp (the DESC query reversed by `[::-1]`, including the
`timestamps` array the page receives); the "range" query of `history` is
descending by timestamp; and over the same underlying table the two queries
reflect consistent sets — the range result is a permutation of the user's
rows in the window, and when the range covers all of the user's rows the
latest window is exactly a `take` of that same descending sequence, so the
two differ only in order and window. -/
theorem C5_query_order_consistency (logs : List LogRow) (uid : String)
    (a b : ℚ) (n : Nat) (s : SessionState) (users : List User) :
    List.Pairwise (fun x y : LogRow => x.timestamp ≤ y.timestamp)
      ((latestWindow logs uid n).reverse) ∧
    (∀ d, dashboard s users logs = .page d →
      List.Pairwise (fun x y : ℚ => x ≤ y) d.timestamps) ∧
    List.Pairwise (fun x y : LogRow => y.timestamp ≤ x.timestamp)
      (rangeQuery logs uid a b) ∧
    (rangeQuery logs uid a b).Perm
      (logs.filter (fun r => r.user_id == uid && decide (a ≤ r.timestamp)
        && decide (r.timestamp ≤ b))) ∧
    ((∀ r ∈ logs, r.user_id = uid → a ≤ r.timestamp ∧ r.timestamp ≤ b) →
      latestWindow logs uid n = (rangeQuery logs uid a b).take n) := by
  refine ⟨latestWindow_reverse_ascending logs uid n, ?_, ?_, ?_, ?_⟩
  · intro d hd
    unfold dashboard at hd
    split at hd
    · simp at hd
    · split at hd
      · simp at hd
      · split at hd
        · simp at hd
        · rename_i u hu
          simp only [] at hd
          split at hd
          · simp at hd
          · injection hd with h
            subst h
            dsimp only
            rw [← List.map_reverse, List.pairwise_map]
            exact latestWindow_reverse_ascending logs u.id 10
  · exact (sortDesc_pairwise _).imp (fun h => h)
  · exact List.perm_insertionSort tsDesc _
  · intro hcov
    have hf : logs.filter
        (fun r => r.user_id == uid && decide (a ≤ r.timestamp)
          && decide (r.timestamp ≤ b)) =
        logs.filter (fun r => r.user_id == uid) := by
      apply List.filter_congr
      intro x hx
      by_cases hxu : x.user_id = uid
      · obtain ⟨h1, h2⟩ := hcov x hx hxu
        simp [hxu, h1, h2]
      · have hb : (x.user_id == uid) = false := beq_eq_false_iff_ne.mpr hxu
        simp [hb]
    unfold latestWindow rangeQuery
    rw [hf]

theorem C5_witness :
    latestWindow [⟨"u1", some 1, none, none, 5⟩] "u1" 1 =
      (rangeQuery [⟨"u1", some 1, none, none, 5⟩] "u1" 0 10).take 1 :=
  (C5_query_order_consistency [⟨"u1", some 1, none, none, 5⟩] "u1" 0 10 1
      ⟨none, none, none, false⟩ []).2.2.2.2 (by decide)
